import Mathlib

/-!
# FarmConnect backend — delivery core, shallow embedding

A shallow embedding of the reliable event-delivery core of the FarmConnect
backend (`src/services/webhookService.js`, `src/models/Webhook.js`,
`src/services/messageQueue.js`), together with proofs about the webhook
dispatcher (signing, retry/backoff, dead-lettering, registry operations)
and the presence-aware chat-message pipeline (offline queueing and replay).

Machine-level conventions of the embedding:
* asynchronous JS methods become pure Lean functions with explicit state
  passing; side effects (HTTP POSTs, backoff waits, queue writes, socket
  emissions) are collected in explicit trace lists;
* the outcome of a network attempt (did `axios.post` resolve with a 2xx?)
  is an oracle parameter `Nat → Bool` indexed by the 1-based attempt number;
* Redis keys `offline:<userId>` and friends become fields of a state record
  keyed by the user id; sorted-set scores are `Date.now()` values, which are
  strictly increasing in the source's usage, so a sorted set keyed by score
  is modelled as an append-ordered list of members;
* timestamps are naturals (a logical clock).
-/

namespace FarmConnect

/-! ## HMAC signing (`generateSignature` / `verifySignature`)

`crypto.createHmac('sha256', secret).update(body).digest('hex')` is modelled
as an idealized collision-free keyed hash: the digest is an abstract value
determined exactly by the pair (secret, signed body).  This is the standard
ideal model of HMAC-SHA256 — the real function is believed collision
resistant, and every property proved below uses nothing beyond that.
`crypto.timingSafeEqual` compares two digest buffers; it is modelled as
plain digest equality (all digests produced by this system are 64-character
hex strings, so the equal-length precondition of `timingSafeEqual` always
holds on the inputs in scope and it never throws). -/
structure Digest where
  secretKey : String
  body : String
deriving DecidableEq, Repr

/-- Idealized HMAC-SHA256: the digest of `message` under key `secret`. -/
def hmacSHA256 (secret message : String) : Digest :=
  { secretKey := secret, body := message }

/-- `generateSignature(payload, secret)` — the HMAC of the serialized
payload under the subscription secret.  The payload argument is the
`JSON.stringify(payload)` string the source feeds to `hmac.update`. -/
def generateSignature (payload secret : String) : Digest :=
  hmacSHA256 secret payload

/-- `crypto.timingSafeEqual` on two digests (see module comment). -/
def timingSafeEqual (a b : Digest) : Bool :=
  a == b

/-- `verifySignature(payload, signature, secret)` — recompute the expected
signature and compare in constant time. -/
def verifySignature (payload : String) (signature : Digest) (secret : String) : Bool :=
  timingSafeEqual signature (generateSignature payload secret)

/-- Idealized HMAC is injective on (secret, message) pairs. -/
theorem hmacSHA256_inj {s₁ m₁ s₂ m₂ : String}
    (h : hmacSHA256 s₁ m₁ = hmacSHA256 s₂ m₂) : s₁ = s₂ ∧ m₁ = m₂ := by
  simpa [hmacSHA256, Digest.mk.injEq] using h

/-- C3. For every payload and secret the generated signature verifies,
and a signature generated from a different payload or a different secret is
rejected: `verifySignature(p, generateSignature(p, s), s) = true`, and
verifying the signature of `(p, s)` against any `(p', s') ≠ (p, s)`
returns `false`. -/
theorem verifySignature_roundtrip_and_reject
    (p s p' s' : String) (h : p' ≠ p ∨ s' ≠ s) :
    verifySignature p (generateSignature p s) s = true ∧
    verifySignature p' (generateSignature p s) s' = false := by
  constructor
  · simp [verifySignature, timingSafeEqual]
  · simp only [verifySignature, timingSafeEqual, beq_eq_false_iff_ne, ne_eq]
    intro heq
    rcases hmacSHA256_inj heq.symm with ⟨hs, hp⟩
    rcases h with h | h
    · exact h hp
    · exact h hs

/-- Witness for `verifySignature_roundtrip_and_reject` at concrete strings. -/
theorem verifySignature_roundtrip_and_reject_witness :
    verifySignature "p1" (generateSignature "p1" "k1") "k1" = true ∧
    verifySignature "p2" (generateSignature "p1" "k1") "k1" = false := by
  have h := verifySignature_roundtrip_and_reject "p1" "k1" "p2" "k1"
    (Or.inl (by decide))
  exact h

/-! ## Webhook subscriptions (`src/models/Webhook.js`)

The mongoose `WebhookSchema`, restricted to the fields the delivery core
reads.  `maxRetries` and `timeout` are the per-subscription retry
configuration the schema declares ("can override global settings",
defaults 3 and 10000, range-validated to [0,10] and [1000,30000]). -/
structure Webhook where
  /-- Mongo document id (`_id`). -/
  id : String
  userId : String
  /-- `crypto.randomUUID()` value assigned at registration. -/
  webhookId : String
  url : String
  events : List String
  secret : String
  name : String
  enabled : Bool
  maxRetries : Nat
  timeout : Nat
  createdAt : Nat
deriving DecidableEq, Repr

/-! ## Webhook dispatcher (`src/services/webhookService.js`)

`WebhookService` constructor constants. -/

/-- `this.maxRetries` — the service-wide retry budget. -/
def serviceMaxRetries : Nat := 3

/-- `this.timeout` — the service-wide per-attempt timeout (ms). -/
def serviceTimeout : Nat := 10000

/-- `this.retryDelays` — the fixed backoff schedule (ms). -/
def retryDelays : List Nat := [1000, 5000, 15000]

/-- The JSON envelope `{event, data, timestamp, webhookId}` built by
`sendWebhook`.  `data` stands for the serialized event data object. -/
structure Payload where
  event : String
  data : String
  timestamp : Nat
  webhookId : String
deriving DecidableEq, Repr

/-- One `axios.post` call as observed by the target endpoint: the URL, the
envelope, the `timeout` option passed to axios, and the value of the
`X-Webhook-Attempt` header. -/
structure Post where
  url : String
  payload : Payload
  timeoutMs : Nat
  attemptHeader : Nat
deriving DecidableEq, Repr

/-- A dead-letter record as written by `addToDeadLetterQueue` to the
`webhook:dead-letter` sorted set. -/
structure DeadLetterItem where
  webhookId : String
  userId : String
  url : String
  eventType : String
  payload : Payload
  errorMessage : String
  timestamp : Nat
  attempts : Nat
deriving DecidableEq, Repr

/-- The value `sendWebhook` resolves with (success/failure, attempts used). -/
structure SendResult where
  webhookId : String
  url : String
  success : Bool
  attempts : Nat
deriving DecidableEq, Repr

/-- Full observable behaviour of one `sendWebhook` invocation: its result,
the POSTs made, the backoff waits performed (ms, in order), and the
dead-letter records written. -/
structure SendTrace where
  result : SendResult
  posts : List Post
  waits : List Nat
  deadLetters : List DeadLetterItem
deriving Repr

/-- `addToDeadLetterQueue(webhook, eventType, payload, error)` — the record
it serializes into the dead-letter sorted set (`attempts: this.maxRetries`,
score/timestamp `Date.now()`). -/
def mkDeadLetterItem (wh : Webhook) (eventType : String) (payload : Payload)
    (errorMessage : String) (now : Nat) : DeadLetterItem :=
  { webhookId := wh.id
    userId := wh.userId
    url := wh.url
    eventType := eventType
    payload := payload
    errorMessage := errorMessage
    timestamp := now
    attempts := serviceMaxRetries }

/-- The `while (attempt <= this.maxRetries)` loop body of `sendWebhook`.
`outcome n = true` means the POST of attempt `n` resolves with a 2xx status
(axios `validateStatus: 200 ≤ s < 300` turns every other response, and any
transport failure or timeout, into a rejection).  `fuel` is the number of
attempts still admitted by the loop guard (`serviceMaxRetries + 1 - attempt`);
the `fuel = 0` base case is the source's unreachable fall-through return
after the loop.  On a failed attempt with attempts remaining the loop waits
`this.retryDelays[attempt - 1]`, increments `attempt` and retries; on the
final failed attempt it writes one dead-letter record and stops. -/
def sendWebhookLoop (wh : Webhook) (eventType : String) (payload : Payload)
    (outcome : Nat → Bool) (now : Nat) : Nat → Nat → SendTrace
  | attempt, 0 =>
      { result := { webhookId := wh.id, url := wh.url, success := false, attempts := attempt }
        posts := []
        waits := []
        deadLetters := [] }
  | attempt, fuel + 1 =>
      let post : Post :=
        { url := wh.url, payload := payload, timeoutMs := serviceTimeout,
          attemptHeader := attempt }
      if outcome attempt then
        { result := { webhookId := wh.id, url := wh.url, success := true, attempts := attempt }
          posts := [post]
          waits := []
          deadLetters := [] }
      else if attempt < serviceMaxRetries then
        let rest := sendWebhookLoop wh eventType payload outcome now (attempt + 1) fuel
        { result := rest.result
          posts := post :: rest.posts
          waits := retryDelays.getD (attempt - 1) 0 :: rest.waits
          deadLetters := rest.deadLetters }
      else
        { result := { webhookId := wh.id, url := wh.url, success := false, attempts := attempt }
          posts := [post]
          waits := []
          deadLetters := [mkDeadLetterItem wh eventType payload "request failed" now] }

/-- `sendWebhook(webhook, eventType, data)` — build the envelope, then run
the retry loop starting at attempt 1.  (The signature header is
`generateSignature` over the serialized envelope; no claim inspects it, and
the `timeout` option passed to axios is the service-wide `this.timeout`,
recorded on each `Post`.) -/
def sendWebhook (wh : Webhook) (eventType dataStr : String) (outcome : Nat → Bool)
    (now : Nat) : SendTrace :=
  let payload : Payload :=
    { event := eventType, data := dataStr, timestamp := now, webhookId := wh.webhookId }
  sendWebhookLoop wh eventType payload outcome now 1 serviceMaxRetries

/-- C1. A dispatch whose endpoint fails on every attempt makes exactly
3 attempts (the default budget), performs exactly the between-attempt waits
`retryDelays[attempt-1]` — i.e. 1s after attempt 1 and 5s after attempt 2,
the schedule `[1s, 5s, 15s]` indexed by attempt number — and writes exactly
one dead-letter record whose `attempts` field equals 3. -/
theorem sendWebhook_allFail_three_attempts_one_deadLetter
    (wh : Webhook) (eventType dataStr : String) (outcome : Nat → Bool) (now : Nat)
    (hfail : ∀ n, outcome n = false) :
    (sendWebhook wh eventType dataStr outcome now).result.success = false ∧
    (sendWebhook wh eventType dataStr outcome now).result.attempts = 3 ∧
    (sendWebhook wh eventType dataStr outcome now).posts.length = 3 ∧
    (sendWebhook wh eventType dataStr outcome now).waits =
      [retryDelays.getD 0 0, retryDelays.getD 1 0] ∧
    (sendWebhook wh eventType dataStr outcome now).waits = [1000, 5000] ∧
    (sendWebhook wh eventType dataStr outcome now).deadLetters.length = 1 ∧
    ∀ d ∈ (sendWebhook wh eventType dataStr outcome now).deadLetters, d.attempts = 3 := by
  simp [sendWebhook, sendWebhookLoop, serviceMaxRetries, retryDelays, hfail,
    mkDeadLetterItem]

/-- Witness for `sendWebhook_allFail_three_attempts_one_deadLetter` on a
concrete subscription whose endpoint always fails. -/
theorem sendWebhook_allFail_witness :
    (sendWebhook
        { id := "w1", userId := "u1", webhookId := "uuid-1",
          url := "https://example.com/hook", events := ["offer.accepted"],
          secret := "s", name := "n", enabled := true, maxRetries := 3,
          timeout := 10000, createdAt := 0 }
        "offer.accepted" "d" (fun _ => false) 7).result.attempts = 3 ∧
    (sendWebhook
        { id := "w1", userId := "u1", webhookId := "uuid-1",
          url := "https://example.com/hook", events := ["offer.accepted"],
          secret := "s", name := "n", enabled := true, maxRetries := 3,
          timeout := 10000, createdAt := 0 }
        "offer.accepted" "d" (fun _ => false) 7).waits = [1000, 5000] := by
  have h := sendWebhook_allFail_three_attempts_one_deadLetter
    { id := "w1", userId := "u1", webhookId := "uuid-1",
      url := "https://example.com/hook", events := ["offer.accepted"],
      secret := "s", name := "n", enabled := true, maxRetries := 3,
      timeout := 10000, createdAt := 0 }
    "offer.accepted" "d" (fun _ => false) 7 (fun _ => rfl)
  exact ⟨h.2.1, h.2.2.2.2.1⟩

/-- Every POST made by the retry loop carries the service-wide axios
`timeout` option `this.timeout`, whatever the subscription's own `timeout`
field says. -/
theorem sendWebhookLoop_posts_timeout (wh : Webhook) (eventType : String)
    (payload : Payload) (outcome : Nat → Bool) (now : Nat) :
    ∀ attempt fuel,
      ∀ p ∈ (sendWebhookLoop wh eventType payload outcome now attempt fuel).posts,
        p.timeoutMs = serviceTimeout := by
  intro attempt fuel
  induction fuel generalizing attempt with
  | zero => simp [sendWebhookLoop]
  | succ fuel ih =>
      intro p hp
      by_cases hk : outcome attempt
      · simp [sendWebhookLoop, hk] at hp
        simp [hp]
      · by_cases hlt : attempt < serviceMaxRetries
        · simp [sendWebhookLoop, hk, hlt] at hp
          rcases hp with hp | hp
          · simp [hp]
          · exact ih (attempt + 1) p hp
        · simp [sendWebhookLoop, hk, hlt] at hp
          simp [hp]

/-- C7. The dispatcher does not use the subscription's configured
per-attempt timeout: for a subscription whose schema-validated `timeout` is
5000 ms (inside the documented [1s, 30s] range), every POST of a delivery
is made with the service-wide 10000 ms axios timeout.  (The schema comment
declares `maxRetries`/`timeout` per-subscription overrides of the global
settings, and the routes accept them, but `sendWebhook` reads only
`this.timeout`.) -/
theorem sendWebhook_uses_service_timeout_not_subscription :
    ((sendWebhook
        { id := "w2", userId := "u1", webhookId := "uuid-2",
          url := "https://example.com/hook", events := ["*"],
          secret := "s", name := "n", enabled := true, maxRetries := 3,
          timeout := 5000, createdAt := 0 }
        "offer.accepted" "d" (fun _ => false) 7).posts.map
          (fun p => p.timeoutMs)) = [10000, 10000, 10000] ∧
    (Webhook.timeout
        { id := "w2", userId := "u1", webhookId := "uuid-2",
          url := "https://example.com/hook", events := ["*"],
          secret := "s", name := "n", enabled := true, maxRetries := 3,
          timeout := 5000, createdAt := 0 }) = 5000 ∧
    1000 ≤ 5000 ∧ 5000 ≤ 30000 ∧ (10000 : Nat) ≠ 5000 := by
  refine ⟨?_, rfl, by decide, by decide, by decide⟩
  simp [sendWebhook, sendWebhookLoop, serviceMaxRetries, serviceTimeout]

/-! ## Event fan-out (`getWebhooksForEvent` / `triggerWebhook`) -/

/-- The mongo query `getWebhooksForEvent` issues:
`{events: {$in: [eventType, '*']}, enabled: true}`, optionally scoped by
`userId`, evaluated over a store of subscription documents. -/
def webhookQuery (store : List Webhook) (eventType : String) (uid : Option String) :
    List Webhook :=
  store.filter (fun w =>
    (w.events.contains eventType || w.events.contains "*") && w.enabled &&
      match uid with
      | none => true
      | some u => w.userId == u)

/-- `getWebhooksForEvent` — returns the query result, and on a store
lookup error logs it and returns the empty list (the `catch` branch). -/
def getWebhooksForEvent (db : Except String (List Webhook)) : List Webhook :=
  match db with
  | .ok l => l
  | .error _ => []

/-- One entry of the `results` array built by `triggerWebhook`'s loop. -/
structure TriggerResultEntry where
  webhookId : String
  url : String
  success : Bool
  skipped : Bool
deriving DecidableEq, Repr

/-- The summary object `triggerWebhook` resolves with. -/
structure TriggerSummary where
  success : Bool
  event : String
  triggered : Nat
  failed : Nat
  results : List TriggerResultEntry
deriving Repr

/-- Observable behaviour of one `triggerWebhook` dispatch. -/
structure TriggerTrace where
  summary : TriggerSummary
  posts : List Post
  deadLetters : List DeadLetterItem
deriving Repr

/-- The `for (const webhook of webhooks)` loop of `triggerWebhook`: a
disabled webhook contributes a `skipped` entry without any POST; an enabled
one is delivered via `sendWebhook` (the per-webhook attempt oracle is keyed
by the webhook's id). -/
def triggerLoop (eventType dataStr : String) (outcome : String → Nat → Bool) (now : Nat) :
    List Webhook → List TriggerResultEntry × List Post × List DeadLetterItem
  | [] => ([], [], [])
  | w :: rest =>
      let acc := triggerLoop eventType dataStr outcome now rest
      if w.enabled then
        let t := sendWebhook w eventType dataStr (outcome w.id) now
        ({ webhookId := w.id, url := w.url, success := t.result.success, skipped := false }
            :: acc.1,
          t.posts ++ acc.2.1, t.deadLetters ++ acc.2.2)
      else
        ({ webhookId := w.id, url := w.url, success := false, skipped := true } :: acc.1,
          acc.2.1, acc.2.2)

/-- `triggerWebhook(eventType, data, userId)` — resolve the matching
webhooks (`db` is the outcome of the store lookup, `.ok` carrying the query
result), return `{success: true, triggered: 0}` when none match, otherwise
run the delivery loop and summarize. -/
def triggerWebhook (db : Except String (List Webhook)) (eventType dataStr : String)
    (outcome : String → Nat → Bool) (now : Nat) : TriggerTrace :=
  let webhooks := getWebhooksForEvent db
  if webhooks.length = 0 then
    { summary :=
        { success := true, event := eventType, triggered := 0, failed := 0, results := [] },
      posts := [], deadLetters := [] }
  else
    let out := triggerLoop eventType dataStr outcome now webhooks
    let successful := (out.1.filter (fun r => r.success)).length
    let failed := (out.1.filter (fun r => !r.success && !r.skipped)).length
    { summary :=
        { success := failed == 0, event := eventType, triggered := successful,
          failed := failed, results := out.1 },
      posts := out.2.1, deadLetters := out.2.2 }

/-- C10. When the subscription-store lookup fails during dispatch, the
error is not raised: `getWebhooksForEvent` returns the empty list and
`triggerWebhook` returns a summary with `success = true` and
`triggered = 0`, making no POST at all. -/
theorem triggerWebhook_lookup_failure_silent (msg eventType dataStr : String)
    (outcome : String → Nat → Bool) (now : Nat) :
    getWebhooksForEvent (Except.error msg) = [] ∧
    (triggerWebhook (Except.error msg) eventType dataStr outcome now).summary.success = true ∧
    (triggerWebhook (Except.error msg) eventType dataStr outcome now).summary.triggered = 0 ∧
    (triggerWebhook (Except.error msg) eventType dataStr outcome now).posts = [] := by
  refine ⟨rfl, ?_, ?_, ?_⟩ <;> simp [triggerWebhook, getWebhooksForEvent]

/-- Every POST made by the retry loop targets the subscription's URL. -/
theorem sendWebhookLoop_posts_url (wh : Webhook) (eventType : String)
    (payload : Payload) (outcome : Nat → Bool) (now : Nat) :
    ∀ attempt fuel,
      ∀ p ∈ (sendWebhookLoop wh eventType payload outcome now attempt fuel).posts,
        p.url = wh.url := by
  intro attempt fuel
  induction fuel generalizing attempt with
  | zero => simp [sendWebhookLoop]
  | succ fuel ih =>
      intro p hp
      by_cases hk : outcome attempt
      · simp [sendWebhookLoop, hk] at hp
        simp [hp]
      · by_cases hlt : attempt < serviceMaxRetries
        · simp [sendWebhookLoop, hk, hlt] at hp
          rcases hp with hp | hp
          · simp [hp]
          · exact ih (attempt + 1) p hp
        · simp [sendWebhookLoop, hk, hlt] at hp
          simp [hp]

/-- Members of the `getWebhooksForEvent` query result come from the store
and satisfy the query's `enabled: true` condition. -/
theorem mem_webhookQuery {store : List Webhook} {eventType : String}
    {uid : Option String} {w : Webhook} (h : w ∈ webhookQuery store eventType uid) :
    w ∈ store ∧ w.enabled = true := by
  rw [webhookQuery, List.mem_filter] at h
  refine ⟨h.1, ?_⟩
  have h2 := h.2
  simp only [Bool.and_eq_true] at h2
  exact h2.1.2

/-- Loop invariant for `triggerWebhook`: over a list of stored, enabled
webhooks the loop produces no `skipped` entry and only POSTs to the URLs of
enabled stored webhooks. -/
theorem triggerLoop_enabled_inv (eventType dataStr : String)
    (outcome : String → Nat → Bool) (now : Nat) (store : List Webhook) :
    ∀ l : List Webhook, (∀ w ∈ l, w ∈ store ∧ w.enabled = true) →
      (∀ r ∈ (triggerLoop eventType dataStr outcome now l).1,
          r.skipped = false ∧ ∃ w ∈ store, w.enabled = true ∧ r.webhookId = w.id) ∧
      (∀ p ∈ (triggerLoop eventType dataStr outcome now l).2.1,
          ∃ w ∈ store, w.enabled = true ∧ p.url = w.url) := by
  intro l
  induction l with
  | nil => intro _; simp [triggerLoop]
  | cons w rest ih =>
      intro hl
      have hw := hl w (List.mem_cons_self w rest)
      have hrest := ih (fun x hx => hl x (List.mem_cons_of_mem w hx))
      constructor
      · intro r hr
        simp only [triggerLoop, hw.2, if_true, List.mem_cons] at hr
        rcases hr with hr | hr
        · subst hr
          exact ⟨rfl, w, hw.1, hw.2, rfl⟩
        · exact hrest.1 r hr
      · intro p hp
        simp only [triggerLoop, hw.2, if_true, List.mem_append] at hp
        rcases hp with hp | hp
        · refine ⟨w, hw.1, hw.2, ?_⟩
          exact sendWebhookLoop_posts_url w eventType _ (outcome w.id) now 1
            serviceMaxRetries p hp
        · exact hrest.2 p hp

/-- C8 counterexample. A store holding exactly one matching but
disabled subscription: the dispatch makes no POST, but the dispatch summary
contains no entry at all for it — in particular it is *not* reported as
skipped, refuting the claim that a disabled matching subscription "is
reported in the dispatch summary as skipped". -/
theorem triggerWebhook_disabled_unreported_counterexample :
    (triggerWebhook
        (Except.ok (webhookQuery
          [{ id := "w3", userId := "u1", webhookId := "uuid-3",
             url := "https://example.com/hook", events := ["offer.accepted"],
             secret := "s", name := "n", enabled := false, maxRetries := 3,
             timeout := 10000, createdAt := 0 }] "offer.accepted" none))
        "offer.accepted" "d" (fun _ _ => true) 0).posts = [] ∧
    (triggerWebhook
        (Except.ok (webhookQuery
          [{ id := "w3", userId := "u1", webhookId := "uuid-3",
             url := "https://example.com/hook", events := ["offer.accepted"],
             secret := "s", name := "n", enabled := false, maxRetries := 3,
             timeout := 10000, createdAt := 0 }] "offer.accepted" none))
        "offer.accepted" "d" (fun _ _ => true) 0).summary.results = [] ∧
    ((triggerWebhook
        (Except.ok (webhookQuery
          [{ id := "w3", userId := "u1", webhookId := "uuid-3",
             url := "https://example.com/hook", events := ["offer.accepted"],
             secret := "s", name := "n", enabled := false, maxRetries := 3,
             timeout := 10000, createdAt := 0 }] "offer.accepted" none))
        "offer.accepted" "d" (fun _ _ => true) 0).summary.results.countP
      (fun r => r.skipped)) = 0 := by
  have hq : webhookQuery
      [{ id := "w3", userId := "u1", webhookId := "uuid-3",
         url := "https://example.com/hook", events := ["offer.accepted"],
         secret := "s", name := "n", enabled := false, maxRetries := 3,
         timeout := 10000, createdAt := 0 }] "offer.accepted" none = [] := by
    simp [webhookQuery]
  refine ⟨?_, ?_, ?_⟩ <;> simp [triggerWebhook, getWebhooksForEvent, hq]

/-- C8 amended. A disabled subscription is never attempted — the
`enabled: true` query filters it out before the loop — and it is also
absent from the dispatch summary: every summary entry belongs to an
enabled stored webhook and has `skipped = false`, and every POST targets an
enabled stored webhook's URL. -/
theorem triggerWebhook_disabled_never_attempted (store : List Webhook)
    (eventType dataStr : String) (uid : Option String)
    (outcome : String → Nat → Bool) (now : Nat) :
    (∀ r ∈ (triggerWebhook (Except.ok (webhookQuery store eventType uid))
        eventType dataStr outcome now).summary.results,
        r.skipped = false ∧ ∃ w ∈ store, w.enabled = true ∧ r.webhookId = w.id) ∧
    (∀ p ∈ (triggerWebhook (Except.ok (webhookQuery store eventType uid))
        eventType dataStr outcome now).posts,
        ∃ w ∈ store, w.enabled = true ∧ p.url = w.url) := by
  have hinv := triggerLoop_enabled_inv eventType dataStr outcome now store
    (webhookQuery store eventType uid) (fun w hw => mem_webhookQuery hw)
  by_cases hlen : (webhookQuery store eventType uid).length = 0
  · constructor <;> · intro x hx
                      simp [triggerWebhook, getWebhooksForEvent, hlen] at hx
  · constructor
    · intro r hr
      simp only [triggerWebhook, getWebhooksForEvent, hlen, if_false] at hr
      exact hinv.1 r hr
    · intro p hp
      simp only [triggerWebhook, getWebhooksForEvent, hlen, if_false] at hp
      exact hinv.2 p hp

/-- Witness for `triggerWebhook_disabled_never_attempted` on a concrete
store holding one enabled matching webhook. -/
theorem triggerWebhook_disabled_never_attempted_witness :
    ∀ r ∈ (triggerWebhook
        (Except.ok (webhookQuery
          [{ id := "w4", userId := "u1", webhookId := "uuid-4",
             url := "https://example.com/hook", events := ["*"],
             secret := "s", name := "n", enabled := true, maxRetries := 3,
             timeout := 10000, createdAt := 0 }] "offer.made" none))
        "offer.made" "d" (fun _ _ => true) 0).summary.results,
      r.skipped = false := by
  intro r hr
  exact ((triggerWebhook_disabled_never_attempted
    [{ id := "w4", userId := "u1", webhookId := "uuid-4",
       url := "https://example.com/hook", events := ["*"],
       secret := "s", name := "n", enabled := true, maxRetries := 3,
       timeout := 10000, createdAt := 0 }] "offer.made" "d" none
    (fun _ _ => true) 0).1 r hr).1

/-! ## Webhook registry (`registerWebhook` / `updateWebhook` / `deleteWebhook`) -/

/-- The result of `new URL(v)`: scheme, host and optional port of the
target.  URL-string parsing itself is a platform primitive; the validator
takes a parser as a parameter (`none` = the constructor threw). -/
structure ParsedUrl where
  protocol : String
  hostname : String
  port : Option Nat
deriving DecidableEq, Repr

/-- The blocked service ports of `validateWebhookUrl`. -/
def dangerousPorts : List Nat :=
  [21, 22, 23, 25, 53, 80, 110, 135, 139, 143, 445, 587, 3306, 3389, 5432]

/-- The alternatives of the private/internal-network pattern
`^(10\.|172\.(1[6-9]|2[0-9]|3[0-1])\.|192\.168\.|127\.|::1|fc00:|fe80:)`
as hostname prefixes. -/
def privateHostPrefixes : List String :=
  ["10.", "192.168.", "127.", "::1", "fc00:", "fe80:"] ++
    (List.range 16).map (fun i => "172." ++ toString (16 + i) ++ ".")

/-- The anchored private-network regex test on a hostname. -/
def isPrivateHost (h : String) : Bool :=
  privateHostPrefixes.any (fun p => h.startsWith p)

/-- JS `String.prototype.includes` for a fixed non-empty needle. -/
def strIncludes (s t : String) : Bool :=
  (s.splitOn t).length != 1

/-- `validateWebhookUrl(url)` — parse the URL; outside of HTTPS reject in
production (unless the hostname mentions localhost); reject dangerous
ports; reject private/internal hosts in production.  Every failure is
rethrown wrapped as `Invalid webhook URL: <message>`. -/
def validateWebhookUrl (production : Bool) (parseUrl : String → Option ParsedUrl)
    (url : String) : Except String Unit :=
  match parseUrl url with
  | none => Except.error "Invalid webhook URL: Invalid URL"
  | some u =>
      if production && (u.protocol != "https:") && !(strIncludes u.hostname "localhost") then
        Except.error "Invalid webhook URL: Webhook URL must use HTTPS in production"
      else if (match u.port with
               | some p => dangerousPorts.contains p
               | none => false) then
        Except.error "Invalid webhook URL: Webhook URL uses a potentially dangerous port"
      else if production && isPrivateHost u.hostname then
        Except.error
          "Invalid webhook URL: Webhook URL cannot point to private/internal network in production"
      else Except.ok ()

/-- `crypto.randomBytes(32).toString('hex')` — hex encoding of the random
bytes.  `randomBytes` is the entropy source's output, a parameter of the
embedding. -/
def hexDigitChars : List Char :=
  "0123456789abcdef".data

/-- One hex digit (the argument is a nibble; reduced mod 16 for totality). -/
def hexDigit (n : Nat) : Char :=
  hexDigitChars.getD (n % 16) '0'

/-- Hex-encode a byte list, two digits per byte, big-endian nibbles. -/
def hexEncodeChars : List Nat → List Char
  | [] => []
  | b :: rest => hexDigit (b / 16) :: hexDigit (b % 16) :: hexEncodeChars rest

/-- `generateSecret()` — hex string of 32 random bytes. -/
def generateSecret (randomBytes : List Nat) : String :=
  String.mk (hexEncodeChars randomBytes)

/-- `s` consists of hex digits only. -/
def allHex (s : String) : Bool :=
  s.data.all (fun c => hexDigitChars.contains c)

/-- The request body of `POST /register` after Joi validation:
`{url, events, secret, name, enabled = true}` (the destructuring default
for `enabled` applied; the single-string `events` form already normalized
to a list as `Array.isArray(events) ? events : [events]` does). -/
structure RegisterData where
  url : String
  events : List String
  secret : Option String
  name : Option String
  enabled : Bool
deriving Repr

/-- The `data` object of the registration response. -/
structure RegisterResponseData where
  id : String
  webhookId : String
  url : String
  events : List String
  name : String
  enabled : Bool
  createdAt : Nat
deriving Repr

/-- The registration response: `{success, data, secret}` — the secret
appears once, at top level. -/
structure RegisterResponse where
  success : Bool
  data : RegisterResponseData
  secret : String
deriving Repr

/-- The key/value fields of the serialized registration response (the
`data` subobject's keys prefixed with `data.`). -/
def registerResponseFields (r : RegisterResponse) : List (String × String) :=
  [("success", if r.success then "true" else "false"),
   ("data._id", r.data.id), ("data.webhookId", r.data.webhookId),
   ("data.url", r.data.url), ("data.events", String.intercalate "," r.data.events),
   ("data.name", r.data.name),
   ("data.enabled", if r.data.enabled then "true" else "false"),
   ("data.createdAt", toString r.data.createdAt),
   ("secret", r.secret)]

/-- The mongoose document's fields before the `toJSON` transform. -/
def webhookJSONFields (w : Webhook) : List (String × String) :=
  [("_id", w.id), ("userId", w.userId), ("webhookId", w.webhookId),
   ("url", w.url), ("name", w.name), ("secret", w.secret),
   ("events", String.intercalate "," w.events),
   ("enabled", if w.enabled then "true" else "false"),
   ("maxRetries", toString w.maxRetries), ("timeout", toString w.timeout),
   ("createdAt", toString w.createdAt)]

/-- The `WebhookSchema` `toJSON` transform: serialize the document and
`delete ret.secret`. -/
def webhookToJSON (w : Webhook) : List (String × String) :=
  (webhookJSONFields w).filter (fun kv => kv.1 != "secret")

/-- `registerWebhook(userId, webhookData)` — validate the URL, generate a
secret when none was supplied, build and save the document (the schema's
pre-save middleware rejects an empty `events` array), and return
`{success, data, secret}` with the secret included only in this creation
response.  `freshMongoId`/`freshWebhookId` are the generated identifiers
and `randomBytes` the entropy consumed by `generateSecret`. -/
def registerWebhook (production : Bool) (parseUrl : String → Option ParsedUrl)
    (userId : String) (d : RegisterData) (freshMongoId freshWebhookId : String)
    (randomBytes : List Nat) (now : Nat) : Except String (Webhook × RegisterResponse) :=
  match validateWebhookUrl production parseUrl d.url with
  | Except.error e => Except.error e
  | Except.ok () =>
      let webhookSecret :=
        match d.secret with
        | some s => s
        | none => generateSecret randomBytes
      let wh : Webhook :=
        { id := freshMongoId, userId := userId, webhookId := freshWebhookId,
          url := d.url, events := d.events, secret := webhookSecret,
          name := (match d.name with
                   | some n => n
                   | none => "Webhook " ++ toString now),
          enabled := d.enabled, maxRetries := 3, timeout := 10000, createdAt := now }
      if wh.events.length = 0 then Except.error "At least one event must be specified"
      else
        Except.ok (wh,
          { success := true,
            data :=
              { id := freshMongoId, webhookId := freshWebhookId, url := d.url,
                events := wh.events, name := wh.name, enabled := wh.enabled,
                createdAt := now },
            secret := webhookSecret })

/-- `getUserWebhooks(userId)` — the documents of `Webhook.find({userId})`
(the redis read-through cache holds the same serialized list, so it does
not change the value returned; mongo's `sort({createdAt: -1})` is a
permutation and every claim below is order-independent, so the query
result is kept in store order). -/
def getUserWebhooks (store : List Webhook) (uid : String) : List Webhook :=
  store.filter (fun w => w.userId == uid)

/-- `Webhook.findOne({_id: webhookId, userId})`. -/
def findOneByIdAndUser (store : List Webhook) (id uid : String) : Option Webhook :=
  store.find? (fun w => w.id == id && w.userId == uid)

/-- The update-request body after Joi validation (the fields the service
reads). -/
structure UpdateData where
  url : Option String
  events : Option (List String)
  name : Option String
  enabled : Option Bool
  rotateSecret : Bool
deriving Repr

/-- The field mutations of `updateWebhook` after the URL branch: events,
name, enabled, and secret rotation. -/
def applyPatchFields (w : Webhook) (u : UpdateData) (freshSecret : String) : Webhook :=
  let w1 := match u.events with
            | none => w
            | some es => { w with events := es }
  let w2 := match u.name with
            | none => w1
            | some n => { w1 with name := n }
  let w3 := match u.enabled with
            | none => w2
            | some b => { w2 with enabled := b }
  if u.rotateSecret then { w3 with secret := freshSecret } else w3

/-- `updateWebhook(webhookId, userId, updateData)` — ownership-checked
lookup (`findOne({_id, userId})`); a miss throws `Webhook not found`; a new
URL is validated; the patch is applied and the document saved (the
pre-save middleware again rejects an empty `events` array). -/
def updateWebhook (production : Bool) (parseUrl : String → Option ParsedUrl)
    (store : List Webhook) (id uid : String) (u : UpdateData) (freshSecret : String) :
    Except String Webhook :=
  match findOneByIdAndUser store id uid with
  | none => Except.error "Webhook not found"
  | some w =>
      let urlStep : Except String Webhook :=
        match u.url with
        | none => Except.ok w
        | some v =>
            match validateWebhookUrl production parseUrl v with
            | Except.error e => Except.error e
            | Except.ok () => Except.ok { w with url := v }
      match urlStep with
      | Except.error e => Except.error e
      | Except.ok w' =>
          let w'' := applyPatchFields w' u freshSecret
          if w''.events.length = 0 then
            Except.error "At least one event must be specified"
          else Except.ok w''

/-- `deleteWebhook(webhookId, userId)` —
`findOneAndDelete({_id, userId})`; a miss throws `Webhook not found`,
otherwise the matched document is removed from the store. -/
def deleteWebhook (store : List Webhook) (id uid : String) :
    Except String (List Webhook) :=
  match findOneByIdAndUser store id uid with
  | none => Except.error "Webhook not found"
  | some _ => Except.ok (store.eraseP (fun w => w.id == id && w.userId == uid))

/-- C9. Updating or deleting a webhook the caller does not own —
including the case where no webhook with that id exists at all — fails
with the same `Webhook not found` error, so a non-owner cannot distinguish
an existing subscription from a non-existent one. -/
theorem updateDelete_nonOwner_notFound (production : Bool)
    (parseUrl : String → Option ParsedUrl) (store : List Webhook) (id uid : String)
    (u : UpdateData) (freshSecret : String)
    (h : ∀ w ∈ store, w.id = id → w.userId ≠ uid) :
    updateWebhook production parseUrl store id uid u freshSecret =
      Except.error "Webhook not found" ∧
    deleteWebhook store id uid = Except.error "Webhook not found" := by
  have hfind : findOneByIdAndUser store id uid = none := by
    rw [findOneByIdAndUser, List.find?_eq_none]
    intro w hw
    simp only [Bool.and_eq_true, beq_iff_eq, not_and]
    exact fun h1 h2 => h w hw h1 h2
  exact ⟨by simp [updateWebhook, hfind], by simp [deleteWebhook, hfind]⟩

/-- Witness for `updateDelete_nonOwner_notFound`: a store holding a webhook
owned by `alice`, attacked by `mallory` under the real id and under a
non-existent id — both produce the identical `Webhook not found` error. -/
theorem updateDelete_nonOwner_notFound_witness :
    deleteWebhook
      [{ id := "w9", userId := "alice", webhookId := "uuid-9",
         url := "https://example.com/hook", events := ["*"], secret := "s",
         name := "n", enabled := true, maxRetries := 3, timeout := 10000,
         createdAt := 0 }] "w9" "mallory" = Except.error "Webhook not found" ∧
    deleteWebhook
      [{ id := "w9", userId := "alice", webhookId := "uuid-9",
         url := "https://example.com/hook", events := ["*"], secret := "s",
         name := "n", enabled := true, maxRetries := 3, timeout := 10000,
         createdAt := 0 }] "nosuch" "mallory" = Except.error "Webhook not found" := by
  constructor
  · exact (updateDelete_nonOwner_notFound false (fun _ => none) _ "w9" "mallory"
      ⟨none, none, none, none, false⟩ "fs"
      (by intro w hw h1; simp at hw; simp [hw])).2
  · exact (updateDelete_nonOwner_notFound false (fun _ => none) _ "nosuch" "mallory"
      ⟨none, none, none, none, false⟩ "fs"
      (by intro w hw h1; simp at hw; simp [hw] at h1)).2

/-- `hexDigit` always produces one of the sixteen hex digit characters. -/
theorem hexDigit_mem (n : Nat) : hexDigit n ∈ hexDigitChars := by
  have h : n % 16 < 16 := Nat.mod_lt _ (by norm_num)
  unfold hexDigit
  generalize n % 16 = k at h ⊢
  interval_cases k <;> decide

/-- Hex encoding yields two characters per byte. -/
theorem hexEncodeChars_length (l : List Nat) :
    (hexEncodeChars l).length = 2 * l.length := by
  induction l with
  | nil => rfl
  | cons b rest ih => simp [hexEncodeChars, ih]; omega

/-- Every character of a hex encoding is a hex digit. -/
theorem hexEncodeChars_mem (l : List Nat) :
    ∀ c ∈ hexEncodeChars l, c ∈ hexDigitChars := by
  induction l with
  | nil => simp [hexEncodeChars]
  | cons b rest ih =>
      intro c hc
      simp only [hexEncodeChars, List.mem_cons] at hc
      rcases hc with hc | hc | hc
      · subst hc; exact hexDigit_mem _
      · subst hc; exact hexDigit_mem _
      · exact ih c hc

/-- A generated secret is hex digits only. -/
theorem allHex_generateSecret (l : List Nat) :
    allHex (generateSecret l) = true := by
  rw [allHex, List.all_eq_true]
  intro c hc
  exact List.elem_eq_true_of_mem (hexEncodeChars_mem l c hc)

/-- The `toJSON` transform leaves no `secret` key in a serialized
webhook. -/
theorem webhookToJSON_no_secret (w : Webhook) :
    (webhookToJSON w).countP (fun kv => kv.1 == "secret") = 0 := by
  simp [webhookToJSON, webhookJSONFields]

/-- C4. Registering a webhook with the secret omitted returns the
freshly generated secret — a 64-character hex string — exactly once, at the
top level of the creation response (and the stored document carries that
same secret); every webhook in a subsequent list response for the owner is
serialized through the `toJSON` transform and contains no `secret` field. -/
theorem registerWebhook_secret_once_then_redacted (production : Bool)
    (parseUrl : String → Option ParsedUrl) (userId : String) (d : RegisterData)
    (mid wid : String) (randomBytes : List Nat) (now : Nat) (store : List Webhook)
    (wh : Webhook) (resp : RegisterResponse)
    (hsec : d.secret = none) (hlen : randomBytes.length = 32)
    (hok : registerWebhook production parseUrl userId d mid wid randomBytes now =
      Except.ok (wh, resp)) :
    resp.secret = generateSecret randomBytes ∧
    resp.secret.length = 64 ∧
    allHex resp.secret = true ∧
    (registerResponseFields resp).countP (fun kv => kv.1 == "secret") = 1 ∧
    wh.secret = resp.secret ∧
    ∀ j ∈ (getUserWebhooks (store ++ [wh]) userId).map webhookToJSON,
      j.countP (fun kv => kv.1 == "secret") = 0 := by
  cases hv : validateWebhookUrl production parseUrl d.url with
  | error e => rw [registerWebhook, hv] at hok; exact absurd hok (by simp)
  | ok u =>
      rw [registerWebhook, hv] at hok
      by_cases he : d.events.length = 0
      · simp only [hsec, he, if_true] at hok
        exact absurd hok (by simp)
      · simp only [hsec, he, if_false] at hok
        have hpair := Except.ok.inj hok
        have hwh : _ = wh := congrArg Prod.fst hpair
        have hresp : _ = resp := congrArg Prod.snd hpair
        subst hwh
        subst hresp
        refine ⟨rfl, ?_, ?_, ?_, rfl, ?_⟩
        · show (generateSecret randomBytes).length = 64
          have hgl : (generateSecret randomBytes).length =
              (hexEncodeChars randomBytes).length := rfl
          rw [hgl, hexEncodeChars_length, hlen]
        · exact allHex_generateSecret randomBytes
        · simp [registerResponseFields]
        · intro j hj
          rcases List.mem_map.1 hj with ⟨w', _, rfl⟩
          exact webhookToJSON_no_secret w'

/-- Witness for `registerWebhook_secret_once_then_redacted`: a concrete
registration with the secret omitted and 32 bytes of entropy `0xab`. -/
theorem registerWebhook_secret_once_witness :
    (generateSecret (List.replicate 32 171)).length = 64 ∧
    allHex (generateSecret (List.replicate 32 171)) = true := by
  have h := registerWebhook_secret_once_then_redacted false
    (fun _ => some ⟨"https:", "example.com", none⟩) "u1"
    ⟨"https://example.com/h", ["message.created"], none, some "n", true⟩
    "m1" "uu1" (List.replicate 32 171) 0 []
    ⟨"m1", "u1", "uu1", "https://example.com/h", ["message.created"],
      generateSecret (List.replicate 32 171), "n", true, 3, 10000, 0⟩
    ⟨true, ⟨"m1", "uu1", "https://example.com/h", ["message.created"], "n", true, 0⟩,
      generateSecret (List.replicate 32 171)⟩
    rfl rfl rfl
  exact ⟨h.2.1, h.2.2.1⟩

/-! ## Message delivery pipeline (`src/services/messageQueue.js`)

The queue state visible to the `send-message` and `deliver-offline`
processors.  The Redis presence wrapper (`src/config/redis.js`) is not part
of the source snapshot — only its call sites are; its operations are
modelled from the spec.  Modelled from the spec: `isUserOnline` /
`getUserSession` are the Presence Directory's `isOnline` / `getSession`
queries (§4.1 — key-value lookups, at most one live session per user); the
sorted-set/TTL primitives `zadd`/`zrange`/`expire`/`del` carry standard
Redis semantics, with `Date.now()` scores strictly increasing so the
per-user sorted set is an append-ordered list. -/

/-- A chat message (its Mongo `_id` and content). -/
structure ChatMessage where
  id : String
  body : String
deriving DecidableEq, Repr

/-- A pending offline payload `{chatId, message, sender}` as serialized
into the `offline:<userId>` sorted set. -/
structure OfflinePayload where
  chatId : String
  message : ChatMessage
  sender : String
deriving DecidableEq, Repr

/-- One `io.to(target).emit('chat:message', ...)` call: the room or socket
addressed, the event payload, and whether it carried `wasOffline: true`
(the `send-message` path emits no `wasOffline` field, which reads as
falsy). -/
structure EmitEvent where
  target : String
  chatId : String
  message : ChatMessage
  sender : String
  wasOffline : Bool
deriving DecidableEq, Repr

/-- A presence session (the socket id held for the user). -/
structure Session where
  socketId : String
deriving DecidableEq, Repr

/-- State read and written by the queue processors: Socket.IO availability
(`getIO()` returning a server or null), the Presence Directory, the
per-user offline sorted sets with their TTLs, the delivery receipts, and
the trace of socket emissions. -/
structure MQState where
  ioAvailable : Bool
  online : String → Bool
  sessions : String → Option Session
  offline : String → List OfflinePayload
  offlineTTL : String → Option Nat
  receipts : List (String × String)
  emitted : List EmitEvent

/-- The 7-day TTL (`604800` s) set on `offline:<userId>`. -/
def offlineMessagesTTL : Nat := 604800

/-- `enqueueOfflineMessage(userId, messageData)` — `zadd` the payload into
`offline:<userId>` keyed by `Date.now()` (append in enqueue order) and
(re)set the entry's 7-day expiry. -/
def enqueueOfflineMessage (st : MQState) (userId : String) (p : OfflinePayload) :
    MQState :=
  { st with
    offline := Function.update st.offline userId (st.offline userId ++ [p])
    offlineTTL := Function.update st.offlineTTL userId (some offlineMessagesTTL) }

/-- A queued `send-message` job's data. -/
structure SendMessageJob where
  chatId : String
  message : ChatMessage
  sender : String
  recipientId : String
deriving DecidableEq, Repr

/-- What a `send-message` job resolves with. -/
structure SendJobResult where
  success : Bool
  deliveredViaSocket : Bool
  queuedOffline : Bool
deriving DecidableEq, Repr

/-- The `send-message` processor: when `getIO()` yields a server it emits
the message to the room `chat_<chatId>` and stores a delivery receipt;
only when Socket.IO is unavailable does it fall back to
`enqueueOfflineMessage` for the recipient.  (No presence lookup occurs on
this path.) -/
def processSendMessage (st : MQState) (job : SendMessageJob) :
    MQState × SendJobResult :=
  if st.ioAvailable then
    ({ st with
        emitted := st.emitted ++
          [{ target := "chat_" ++ job.chatId, chatId := job.chatId,
             message := job.message, sender := job.sender, wasOffline := false }]
        receipts := st.receipts ++ [(job.chatId, job.message.id)] },
      { success := true, deliveredViaSocket := true, queuedOffline := false })
  else
    (enqueueOfflineMessage st job.recipientId
        { chatId := job.chatId, message := job.message, sender := job.sender },
      { success := true, deliveredViaSocket := false, queuedOffline := true })

/-- C2 counterexample. A state whose recipient `bob` is offline in the
Presence Directory while the Socket.IO server is available: the processed
job leaves `bob`'s offline entry empty — the payload is *not* appended —
because the processor emits into the chat room without ever consulting the
recipient's presence.  This refutes the claim that the worker checks the
Presence Directory and queues the payload offline whenever the recipient
is offline. -/
theorem processSendMessage_offline_recipient_not_queued_counterexample :
    (MQState.online
      { ioAvailable := true, online := fun _ => false, sessions := fun _ => none,
        offline := fun _ => [], offlineTTL := fun _ => none, receipts := [],
        emitted := [] } "bob") = false ∧
    ((processSendMessage
        { ioAvailable := true, online := fun _ => false, sessions := fun _ => none,
          offline := fun _ => [], offlineTTL := fun _ => none, receipts := [],
          emitted := [] }
        { chatId := "c1", message := { id := "m1", body := "hi" },
          sender := "alice", recipientId := "bob" }).1.offline "bob") = [] ∧
    (processSendMessage
        { ioAvailable := true, online := fun _ => false, sessions := fun _ => none,
          offline := fun _ => [], offlineTTL := fun _ => none, receipts := [],
          emitted := [] }
        { chatId := "c1", message := { id := "m1", body := "hi" },
          sender := "alice", recipientId := "bob" }).2.queuedOffline = false ∧
    (processSendMessage
        { ioAvailable := true, online := fun _ => false, sessions := fun _ => none,
          offline := fun _ => [], offlineTTL := fun _ => none, receipts := [],
          emitted := [] }
        { chatId := "c1", message := { id := "m1", body := "hi" },
          sender := "alice", recipientId := "bob" }).1.emitted =
      [{ target := "chat_c1", chatId := "c1", message := { id := "m1", body := "hi" },
         sender := "alice", wasOffline := false }] := by
  refine ⟨rfl, rfl, rfl, rfl⟩

/-- C2 amended. The `send-message` worker does not consult the
recipient's presence; it checks only whether the Socket.IO server is
available.  When the server is unavailable, the payload is appended to the
recipient's offline entry (in enqueue order, after any pending payloads)
and the entry's 7-day expiry horizon is set/refreshed — the message is
queued, not dropped. -/
theorem processSendMessage_io_unavailable_queues_offline (st : MQState)
    (job : SendMessageJob) (h : st.ioAvailable = false) :
    (processSendMessage st job).1.offline job.recipientId =
      st.offline job.recipientId ++
        [{ chatId := job.chatId, message := job.message, sender := job.sender }] ∧
    (processSendMessage st job).1.offlineTTL job.recipientId =
      some offlineMessagesTTL ∧
    (processSendMessage st job).2.success = true ∧
    (processSendMessage st job).2.queuedOffline = true := by
  refine ⟨?_, ?_, ?_, ?_⟩ <;>
    simp [processSendMessage, enqueueOfflineMessage, h, Function.update_same]

/-- Witness for `processSendMessage_io_unavailable_queues_offline`: with
Socket.IO down and one payload already pending, the new payload is appended
behind it and the TTL refreshed. -/
theorem processSendMessage_io_unavailable_witness :
    (processSendMessage
        { ioAvailable := false, online := fun _ => true, sessions := fun _ => none,
          offline := fun _ =>
            [{ chatId := "c0", message := { id := "m0", body := "old" },
               sender := "carol" }],
          offlineTTL := fun _ => some 100, receipts := [], emitted := [] }
        { chatId := "c1", message := { id := "m1", body := "hi" },
          sender := "alice", recipientId := "bob" }).1.offline "bob" =
      [{ chatId := "c0", message := { id := "m0", body := "old" }, sender := "carol" },
       { chatId := "c1", message := { id := "m1", body := "hi" }, sender := "alice" }] := by
  exact (processSendMessage_io_unavailable_queues_offline
    { ioAvailable := false, online := fun _ => true, sessions := fun _ => none,
      offline := fun _ =>
        [{ chatId := "c0", message := { id := "m0", body := "old" },
           sender := "carol" }],
      offlineTTL := fun _ => some 100, receipts := [], emitted := [] }
    { chatId := "c1", message := { id := "m1", body := "hi" },
      sender := "alice", recipientId := "bob" } rfl).1

/-- What a `deliver-offline` job resolves with. -/
structure DeliverResult where
  success : Bool
  delivered : Nat
deriving DecidableEq, Repr

/-- The `deliver-offline` processor on a job `{userId, messages}`: with the
Socket.IO server up, an online user, and a session holding a (truthy,
i.e. non-empty) socket id, every queued payload is emitted to that socket
tagged `wasOffline: true` and only then is `offline:<userId>` deleted
(entry and TTL).  If the user is found offline — or no usable session
exists — it throws `User still offline`, leaving the entry untouched; with
the server down it resolves unsuccessfully, also leaving the entry
untouched. -/
def processDeliverOffline (st : MQState) (userId : String)
    (messages : List OfflinePayload) : MQState × Except String DeliverResult :=
  if st.ioAvailable then
    if st.online userId then
      match st.sessions userId with
      | some session =>
          if session.socketId != "" then
            ({ st with
                emitted := st.emitted ++ messages.map (fun m =>
                  { target := session.socketId, chatId := m.chatId,
                    message := m.message, sender := m.sender, wasOffline := true })
                offline := Function.update st.offline userId []
                offlineTTL := Function.update st.offlineTTL userId none },
              Except.ok { success := true, delivered := messages.length })
          else (st, Except.error "User still offline")
      | none => (st, Except.error "User still offline")
    else (st, Except.error "User still offline")
  else (st, Except.ok { success := false, delivered := 0 })

/-- `getOfflineMessages(userId)` — `zrange offline:<userId> 0 -1`, the full
pending entry in enqueue order. -/
def getOfflineMessages (st : MQState) (userId : String) : List OfflinePayload :=
  st.offline userId

/-- `deliverOfflineMessages(userId)` composed with the processing of the
`deliver-offline` job it enqueues: read the pending snapshot, return
immediately when it is empty, otherwise run the processor on the snapshot.
The job is enqueued with `attempts: 1`, so the single processor run is the
whole delivery attempt; the `{delivered, jobId}` value the enqueueing
method itself returns is not modelled. -/
def deliverOfflineMessages (st : MQState) (userId : String) :
    MQState × Except String DeliverResult :=
  let messages := getOfflineMessages st userId
  if messages.length = 0 then (st, Except.ok { success := true, delivered := 0 })
  else processDeliverOffline st userId messages

/-- The condition under which the `deliver-offline` processor reaches its
replay branch: server up, user online, truthy session socket id. -/
def canReplay (st : MQState) (userId : String) : Bool :=
  st.ioAvailable && st.online userId &&
    (match st.sessions userId with
     | some s => s.socketId != ""
     | none => false)

/-- C5. Replay is all-or-nothing relative to the persisted entry: when
the user cannot be reached (server down, user offline, or no usable
session) the pending offline entry and the emission trace are left fully
intact; and whenever the entry changes at all, it is cleared completely and
every previously pending payload has been emitted to the user's live
socket tagged `wasOffline: true`, in order. -/
theorem deliverOfflineMessages_all_or_nothing (st : MQState) (userId : String) :
    (canReplay st userId = false →
      (deliverOfflineMessages st userId).1.offline userId = st.offline userId ∧
      (deliverOfflineMessages st userId).1.emitted = st.emitted) ∧
    ((deliverOfflineMessages st userId).1.offline userId ≠ st.offline userId →
      canReplay st userId = true ∧
      st.offline userId ≠ [] ∧
      (deliverOfflineMessages st userId).1.offline userId = [] ∧
      ∃ s : Session, st.sessions userId = some s ∧
        (deliverOfflineMessages st userId).1.emitted =
          st.emitted ++ (st.offline userId).map (fun m =>
            { target := s.socketId, chatId := m.chatId, message := m.message,
              sender := m.sender, wasOffline := true })) := by
  by_cases hempty : (st.offline userId).length = 0
  · constructor
    · intro _
      constructor <;>
        simp [deliverOfflineMessages, getOfflineMessages, hempty]
    · intro hch
      exact absurd (by simp [deliverOfflineMessages, getOfflineMessages, hempty])
        hch
  · by_cases hio : st.ioAvailable
    · by_cases hon : st.online userId
      · cases hs : st.sessions userId with
        | none =>
            have hcr : canReplay st userId = false := by
              simp [canReplay, hs]
            constructor
            · intro _
              constructor <;>
                simp [deliverOfflineMessages, getOfflineMessages, hempty,
                  processDeliverOffline, hio, hon, hs]
            · intro hch
              exact absurd (by
                simp [deliverOfflineMessages, getOfflineMessages, hempty,
                  processDeliverOffline, hio, hon, hs]) hch
        | some s =>
            by_cases hsid : s.socketId = ""
            · have hcr : canReplay st userId = false := by
                simp [canReplay, hs, hsid]
              constructor
              · intro _
                constructor <;>
                  simp [deliverOfflineMessages, getOfflineMessages, hempty,
                    processDeliverOffline, hio, hon, hs, hsid]
              · intro hch
                exact absurd (by
                  simp [deliverOfflineMessages, getOfflineMessages, hempty,
                    processDeliverOffline, hio, hon, hs, hsid]) hch
            · have hcr : canReplay st userId = true := by
                simp [canReplay, hio, hon, hs, hsid]
              constructor
              · intro hfalse
                rw [hcr] at hfalse
                exact absurd hfalse (by simp)
              · intro _
                refine ⟨hcr, fun hnil => hempty (by simp [hnil]), ?_, s, rfl, ?_⟩ <;>
                  simp [deliverOfflineMessages, getOfflineMessages, hempty,
                    processDeliverOffline, hio, hon, hs, hsid,
                    Function.update_same]
      · have hcr : canReplay st userId = false := by
          simp [canReplay, hon]
        constructor
        · intro _
          constructor <;>
            simp [deliverOfflineMessages, getOfflineMessages, hempty,
              processDeliverOffline, hio, hon]
        · intro hch
          exact absurd (by
            simp [deliverOfflineMessages, getOfflineMessages, hempty,
              processDeliverOffline, hio, hon]) hch
    · have hcr : canReplay st userId = false := by
        simp [canReplay, hio]
      constructor
      · intro _
        constructor <;>
          simp [deliverOfflineMessages, getOfflineMessages, hempty,
            processDeliverOffline, hio]
      · intro hch
        exact absurd (by
          simp [deliverOfflineMessages, getOfflineMessages, hempty,
            processDeliverOffline, hio]) hch

/-- Witness for `deliverOfflineMessages_all_or_nothing`: a user found
offline during replay keeps their single pending payload intact. -/
theorem deliverOfflineMessages_all_or_nothing_witness :
    (deliverOfflineMessages
        { ioAvailable := true, online := fun _ => false, sessions := fun _ => none,
          offline := fun _ =>
            [{ chatId := "c1", message := { id := "m1", body := "hi" },
               sender := "alice" }],
          offlineTTL := fun _ => some offlineMessagesTTL, receipts := [],
          emitted := [] } "bob").1.offline "bob" =
      [{ chatId := "c1", message := { id := "m1", body := "hi" },
         sender := "alice" }] := by
  exact ((deliverOfflineMessages_all_or_nothing
    { ioAvailable := true, online := fun _ => false, sessions := fun _ => none,
      offline := fun _ =>
        [{ chatId := "c1", message := { id := "m1", body := "hi" },
           sender := "alice" }],
      offlineTTL := fun _ => some offlineMessagesTTL, receipts := [],
      emitted := [] } "bob").1 rfl).1

/-! ## Dead-letter retry (`retryDeadLetterQueue`) -/

/-- `zadd` of freshly dead-lettered items into the `webhook:dead-letter`
sorted set: a sorted set has unique members, so an already-present member
only has its score refreshed; a new member is inserted. -/
def zaddAll (store items : List DeadLetterItem) : List DeadLetterItem :=
  items.foldl (fun s it => if it ∈ s then s else s ++ [it]) store

/-- The dead-letter store and the webhook collection that
`retryDeadLetterQueue` works over. -/
structure RetryState where
  dl : List DeadLetterItem
  webhooks : List Webhook

/-- `getDeadLetterQueue()` — `zrange webhook:dead-letter 0 50`, i.e. the
first 51 records in score order. -/
def getDeadLetterQueue (st : RetryState) : List DeadLetterItem :=
  st.dl.take 51

/-- The loop's id filter:
`itemIds.length > 0 && !itemIds.includes(item.webhookId)`. -/
def retrySkipsFilter (itemIds : List String) (item : DeadLetterItem) : Bool :=
  !itemIds.isEmpty && !(itemIds.contains item.webhookId)

/-- `Webhook.findById(item.webhookId)` — re-resolve the live
subscription. -/
def retryResolve (webhooks : List Webhook) (item : DeadLetterItem) : Option Webhook :=
  webhooks.find? (fun w => w.id == item.webhookId)

/-- A record passes the filter, its webhook still exists, and it is
enabled — i.e. the loop reaches the `sendWebhook` re-attempt for it. -/
def retryAttempted (webhooks : List Webhook) (itemIds : List String)
    (item : DeadLetterItem) : Bool :=
  !(retrySkipsFilter itemIds item) &&
    (match retryResolve webhooks item with
     | some wh => wh.enabled
     | none => false)

/-- The re-attempted `sendWebhook` delivery for a record succeeds iff some
attempt within the budget gets a 2xx. -/
def retryAttemptSucceeds (outcome : DeadLetterItem → Nat → Bool)
    (item : DeadLetterItem) : Bool :=
  outcome item 1 || outcome item 2 || outcome item 3

/-- The `for (const item of items)` loop of `retryDeadLetterQueue` over
the fetched snapshot, threading the live dead-letter store: a record that
fails the id filter, or whose webhook has been deleted or disabled, is
passed over untouched; otherwise one `sendWebhook` delivery is re-attempted
with the original payload's data, and the record is `zrem`-ed exactly when
that delivery succeeds (a failed re-attempt also dead-letters afresh inside
`sendWebhook`).  Yields the pushed results, the POSTs tagged with the
record they were made for, and the final store. -/
def retryLoop (webhooks : List Webhook) (itemIds : List String)
    (outcome : DeadLetterItem → Nat → Bool) (now : Nat) :
    List DeadLetterItem → List DeadLetterItem →
      List SendResult × List (DeadLetterItem × Post) × List DeadLetterItem
  | [], store => ([], [], store)
  | item :: rest, store =>
      if retrySkipsFilter itemIds item then
        retryLoop webhooks itemIds outcome now rest store
      else
        match retryResolve webhooks item with
        | none => retryLoop webhooks itemIds outcome now rest store
        | some wh =>
            if wh.enabled then
              let t := sendWebhook wh item.eventType item.payload.data (outcome item) now
              let store' :=
                if t.result.success then store.filter (fun x => x != item)
                else zaddAll store t.deadLetters
              let acc := retryLoop webhooks itemIds outcome now rest store'
              (t.result :: acc.1, t.posts.map (fun p => (item, p)) ++ acc.2.1, acc.2.2)
            else retryLoop webhooks itemIds outcome now rest store

/-- `retryDeadLetterQueue(itemIds)` — fetch the snapshot once, run the
loop over it against the live store. -/
def retryDeadLetterQueue (st : RetryState) (itemIds : List String)
    (outcome : DeadLetterItem → Nat → Bool) (now : Nat) :
    List SendResult × List (DeadLetterItem × Post) × RetryState :=
  let out := retryLoop st.webhooks itemIds outcome now (getDeadLetterQueue st) st.dl
  (out.1, out.2.1, { dl := out.2.2, webhooks := st.webhooks })

/-- Membership in a sorted set after `zadd`ing a batch. -/
theorem mem_zaddAll (store items : List DeadLetterItem) (x : DeadLetterItem) :
    x ∈ zaddAll store items ↔ x ∈ store ∨ x ∈ items := by
  induction items generalizing store with
  | nil => simp [zaddAll]
  | cons a l ih =>
      show x ∈ zaddAll (if a ∈ store then store else store ++ [a]) l ↔ _
      rw [ih]
      by_cases ha : a ∈ store
      · simp only [ha, if_true, List.mem_cons]
        constructor
        · rintro (hx | hx)
          · exact Or.inl hx
          · exact Or.inr (Or.inr hx)
        · rintro (hx | hx | hx)
          · exact Or.inl hx
          · exact Or.inl (hx ▸ ha)
          · exact Or.inr hx
      · simp only [ha, if_false, List.mem_append, List.mem_singleton, List.mem_cons]
        tauto

/-- Every dead-letter record written by the retry loop of `sendWebhook`
carries the current clock as its enqueue timestamp. -/
theorem sendWebhookLoop_deadLetters_timestamp (wh : Webhook) (eventType : String)
    (payload : Payload) (outcome : Nat → Bool) (now : Nat) :
    ∀ attempt fuel,
      ∀ d ∈ (sendWebhookLoop wh eventType payload outcome now attempt fuel).deadLetters,
        d.timestamp = now := by
  intro attempt fuel
  induction fuel generalizing attempt with
  | zero => simp [sendWebhookLoop]
  | succ fuel ih =>
      intro d hd
      by_cases hk : outcome attempt
      · simp [sendWebhookLoop, hk] at hd
      · by_cases hlt : attempt < serviceMaxRetries
        · simp only [sendWebhookLoop, hk, hlt, if_false, if_true,
            Bool.false_eq_true] at hd
          exact ih (attempt + 1) d hd
        · simp [sendWebhookLoop, hk, hlt, mkDeadLetterItem] at hd
          simp [hd]

/-- `sendWebhook` succeeds exactly when one of the three budgeted attempts
gets a 2xx. -/
theorem sendWebhook_success_iff (wh : Webhook) (eventType dataStr : String)
    (outcome : Nat → Bool) (now : Nat) :
    (sendWebhook wh eventType dataStr outcome now).result.success =
      (outcome 1 || outcome 2 || outcome 3) := by
  cases h1 : outcome 1 <;> cases h2 : outcome 2 <;> cases h3 : outcome 3 <;>
    simp [sendWebhook, sendWebhookLoop, serviceMaxRetries, h1, h2, h3]

/-- `sendWebhook` always POSTs at least once. -/
theorem sendWebhook_posts_ne_nil (wh : Webhook) (eventType dataStr : String)
    (outcome : Nat → Bool) (now : Nat) :
    (sendWebhook wh eventType dataStr outcome now).posts ≠ [] := by
  cases h1 : outcome 1 <;> cases h2 : outcome 2 <;> cases h3 : outcome 3 <;>
    simp [sendWebhook, sendWebhookLoop, serviceMaxRetries, h1, h2, h3]

/-- Unpack `retryAttempted`. -/
theorem retryAttempted_true_elim {webhooks : List Webhook} {itemIds : List String}
    {item : DeadLetterItem} (h : retryAttempted webhooks itemIds item = true) :
    retrySkipsFilter itemIds item = false ∧
    ∃ wh, retryResolve webhooks item = some wh ∧ wh.enabled = true := by
  rw [retryAttempted, Bool.and_eq_true] at h
  refine ⟨by simpa using h.1, ?_⟩
  rcases hr : retryResolve webhooks item with _ | wh
  · rw [hr] at h
    simp at h
  · rw [hr] at h
    exact ⟨wh, rfl, h.2⟩

/-- A record absent from the store stays absent through the retry loop
(the loop only inserts records freshly stamped with the current clock). -/
theorem retryLoop_not_mem (webhooks : List Webhook) (itemIds : List String)
    (outcome : DeadLetterItem → Nat → Bool) (now : Nat) :
    ∀ (snapshot store : List DeadLetterItem) (x : DeadLetterItem),
      x ∉ store → x.timestamp < now →
      x ∉ (retryLoop webhooks itemIds outcome now snapshot store).2.2 := by
  intro snapshot
  induction snapshot with
  | nil =>
      intro store x hx _
      simpa [retryLoop] using hx
  | cons item rest ih =>
      intro store x hx hts
      by_cases hf : retrySkipsFilter itemIds item
      · simp only [retryLoop, hf, if_true]
        exact ih store x hx hts
      · cases hr : retryResolve webhooks item with
        | none =>
            simp only [retryLoop, hf, Bool.false_eq_true, if_false, hr]
            exact ih store x hx hts
        | some wh =>
            by_cases hw : wh.enabled
            · by_cases hs :
                  (sendWebhook wh item.eventType item.payload.data (outcome item)
                    now).result.success
              · simp only [retryLoop, hf, Bool.false_eq_true, if_false, hr, hw,
                  if_true, hs]
                exact ih _ x (fun hmem => hx (List.mem_of_mem_filter hmem)) hts
              · simp only [retryLoop, hf, Bool.false_eq_true, if_false, hr, hw,
                  if_true, hs]
                refine ih _ x ?_ hts
                rw [mem_zaddAll]
                rintro (hmem | hmem)
                · exact hx hmem
                · have := sendWebhookLoop_deadLetters_timestamp wh item.eventType
                    _ (outcome item) now 1 serviceMaxRetries x hmem
                  omega
            · simp only [retryLoop, hf, Bool.false_eq_true, if_false, hr, hw]
              exact ih store x hx hts

/-- A stored record that is never successfully re-attempted in this run
stays in the store. -/
theorem retryLoop_mem_stays (webhooks : List Webhook) (itemIds : List String)
    (outcome : DeadLetterItem → Nat → Bool) (now : Nat) :
    ∀ (snapshot store : List DeadLetterItem) (x : DeadLetterItem),
      x ∈ store → x.timestamp < now →
      (¬(retryAttempted webhooks itemIds x = true ∧
          retryAttemptSucceeds outcome x = true) ∨ x ∉ snapshot) →
      x ∈ (retryLoop webhooks itemIds outcome now snapshot store).2.2 := by
  intro snapshot
  induction snapshot with
  | nil =>
      intro store x hx _ _
      simpa [retryLoop] using hx
  | cons item rest ih =>
      intro store x hx hts hcond
      have hcond' : (¬(retryAttempted webhooks itemIds x = true ∧
          retryAttemptSucceeds outcome x = true) ∨ x ∉ rest) := by
        rcases hcond with h | h
        · exact Or.inl h
        · exact Or.inr (fun hr => h (List.mem_cons_of_mem item hr))
      by_cases hf : retrySkipsFilter itemIds item
      · simp only [retryLoop, hf, if_true]
        exact ih store x hx hts hcond'
      · cases hr : retryResolve webhooks item with
        | none =>
            simp only [retryLoop, hf, Bool.false_eq_true, if_false, hr]
            exact ih store x hx hts hcond'
        | some wh =>
            by_cases hw : wh.enabled
            · by_cases hs :
                  (sendWebhook wh item.eventType item.payload.data (outcome item)
                    now).result.success
              · simp only [retryLoop, hf, Bool.false_eq_true, if_false, hr, hw,
                  if_true, hs]
                have hxi : x ≠ item := by
                  intro hEq
                  subst hEq
                  rcases hcond with h | h
                  · refine h ⟨?_, ?_⟩
                    · simp [retryAttempted, retrySkipsFilter] at hf ⊢
                      refine ⟨?_, by simp [hr, hw]⟩
                      by_cases hni : itemIds = []
                      · exact Or.inl hni
                      · exact Or.inr (hf hni)
                    · rw [retryAttemptSucceeds,
                        ← sendWebhook_success_iff wh x.eventType x.payload.data
                          (outcome x) now]
                      exact hs
                  · exact h (List.mem_cons_self x rest)
                refine ih _ x ?_ hts hcond'
                rw [List.mem_filter]
                exact ⟨hx, by simp [hxi]⟩
              · simp only [retryLoop, hf, Bool.false_eq_true, if_false, hr, hw,
                  if_true, hs]
                refine ih _ x ?_ hts hcond'
                rw [mem_zaddAll]
                exact Or.inl hx
            · simp only [retryLoop, hf, Bool.false_eq_true, if_false, hr, hw]
              exact ih store x hx hts hcond'

/-- A snapshot record whose re-attempt is reached and succeeds is gone from
the final store. -/
theorem retryLoop_removed (webhooks : List Webhook) (itemIds : List String)
    (outcome : DeadLetterItem → Nat → Bool) (now : Nat) :
    ∀ (snapshot store : List DeadLetterItem) (x : DeadLetterItem),
      x.timestamp < now → x ∈ snapshot →
      retryAttempted webhooks itemIds x = true →
      retryAttemptSucceeds outcome x = true →
      x ∉ (retryLoop webhooks itemIds outcome now snapshot store).2.2 := by
  intro snapshot
  induction snapshot with
  | nil =>
      intro store x _ hmem
      exact absurd hmem (List.not_mem_nil x)
  | cons item rest ih =>
      intro store x hts hmem hatt hsucc
      rcases List.mem_cons.1 hmem with hEq | hrest
      · subst hEq
        rcases retryAttempted_true_elim hatt with ⟨hf, wh, hr, hw⟩
        have hs : (sendWebhook wh x.eventType x.payload.data (outcome x)
            now).result.success = true := by
          rw [sendWebhook_success_iff]
          exact hsucc
        simp only [retryLoop, hf, Bool.false_eq_true, if_false, hr, hw,
          if_true, hs]
        refine retryLoop_not_mem webhooks itemIds outcome now rest _ x ?_ hts
        rw [List.mem_filter]
        rintro ⟨_, hne⟩
        simp at hne
      · by_cases hf : retrySkipsFilter itemIds item
        · simp only [retryLoop, hf, if_true]
          exact ih store x hts hrest hatt hsucc
        · cases hr : retryResolve webhooks item with
          | none =>
              simp only [retryLoop, hf, Bool.false_eq_true, if_false, hr]
              exact ih store x hts hrest hatt hsucc
          | some wh =>
              by_cases hw : wh.enabled
              · by_cases hs :
                    (sendWebhook wh item.eventType item.payload.data (outcome item)
                      now).result.success
                · simp only [retryLoop, hf, Bool.false_eq_true, if_false, hr, hw,
                    if_true, hs]
                  exact ih _ x hts hrest hatt hsucc
                · simp only [retryLoop, hf, Bool.false_eq_true, if_false, hr, hw,
                    if_true, hs]
                  exact ih _ x hts hrest hatt hsucc
              · simp only [retryLoop, hf, Bool.false_eq_true, if_false, hr, hw]
                exact ih store x hts hrest hatt hsucc

/-- Every POST of the retry loop is tagged with a record whose re-attempt
was reached. -/
theorem retryLoop_posts_attempted (webhooks : List Webhook) (itemIds : List String)
    (outcome : DeadLetterItem → Nat → Bool) (now : Nat) :
    ∀ (snapshot store : List DeadLetterItem) (pr : DeadLetterItem × Post),
      pr ∈ (retryLoop webhooks itemIds outcome now snapshot store).2.1 →
      retryAttempted webhooks itemIds pr.1 = true := by
  intro snapshot
  induction snapshot with
  | nil =>
      intro store pr hpr
      simp [retryLoop] at hpr
  | cons item rest ih =>
      intro store pr hpr
      by_cases hf : retrySkipsFilter itemIds item
      · simp only [retryLoop, hf, if_true] at hpr
        exact ih store pr hpr
      · cases hr : retryResolve webhooks item with
        | none =>
            simp only [retryLoop, hf, Bool.false_eq_true, if_false, hr] at hpr
            exact ih store pr hpr
        | some wh =>
            by_cases hw : wh.enabled
            · simp only [retryLoop, hf, Bool.false_eq_true, if_false, hr, hw,
                if_true, List.mem_append] at hpr
              rcases hpr with hpr | hpr
              · rcases List.mem_map.1 hpr with ⟨p, _, rfl⟩
                simp [retryAttempted, retrySkipsFilter] at hf ⊢
                refine ⟨?_, by simp [hr, hw]⟩
                by_cases hni : itemIds = []
                · exact Or.inl hni
                · exact Or.inr (hf hni)
              · exact ih _ pr hpr
            · simp only [retryLoop, hf, Bool.false_eq_true, if_false, hr, hw] at hpr
              exact ih store pr hpr

/-- A snapshot record whose re-attempt is reached produces at least one
tagged POST. -/
theorem retryLoop_attempted_has_post (webhooks : List Webhook) (itemIds : List String)
    (outcome : DeadLetterItem → Nat → Bool) (now : Nat) :
    ∀ (snapshot store : List DeadLetterItem) (x : DeadLetterItem),
      x ∈ snapshot → retryAttempted webhooks itemIds x = true →
      ∃ pr ∈ (retryLoop webhooks itemIds outcome now snapshot store).2.1,
        pr.1 = x := by
  intro snapshot
  induction snapshot with
  | nil =>
      intro store x hmem
      exact absurd hmem (List.not_mem_nil x)
  | cons item rest ih =>
      intro store x hmem hatt
      rcases List.mem_cons.1 hmem with hEq | hrest
      · subst hEq
        rcases retryAttempted_true_elim hatt with ⟨hf, wh, hr, hw⟩
        simp only [retryLoop, hf, Bool.false_eq_true, if_false, hr, hw, if_true]
        rcases List.exists_mem_of_ne_nil _
            (sendWebhook_posts_ne_nil wh x.eventType x.payload.data (outcome x) now)
          with ⟨p, hp⟩
        exact ⟨(x, p), List.mem_append_left _ (List.mem_map.2 ⟨p, hp, rfl⟩), rfl⟩
      · by_cases hf : retrySkipsFilter itemIds item
        · simp only [retryLoop, hf, if_true]
          exact ih store x hrest hatt
        · cases hr : retryResolve webhooks item with
          | none =>
              simp only [retryLoop, hf, Bool.false_eq_true, if_false, hr]
              exact ih store x hrest hatt
          | some wh =>
              by_cases hw : wh.enabled
              · simp only [retryLoop, hf, Bool.false_eq_true, if_false, hr, hw,
                  if_true]
                rcases ih _ x hrest hatt with ⟨pr, hpr, hpr1⟩
                exact ⟨pr, List.mem_append_right _ hpr, hpr1⟩
              · simp only [retryLoop, hf, Bool.false_eq_true, if_false, hr, hw]
                exact ih store x hrest hatt

/-- C6. For every dead-letter record in the processed snapshot: a
record whose webhook has since been deleted or disabled (or which the id
filter passes over) is skipped without any POST being made for it and
remains in the store; a record whose re-attempt is reached is POSTed, and
it is removed from the dead-letter store if and only if the single
re-attempted delivery succeeds. -/
theorem retryDeadLetterQueue_remove_iff_success (st : RetryState)
    (itemIds : List String) (outcome : DeadLetterItem → Nat → Bool) (now : Nat)
    (hfresh : ∀ it ∈ st.dl, it.timestamp < now) :
    ∀ item ∈ getDeadLetterQueue st,
      (retryAttempted st.webhooks itemIds item = false →
        item ∈ (retryDeadLetterQueue st itemIds outcome now).2.2.dl ∧
        ∀ pr ∈ (retryDeadLetterQueue st itemIds outcome now).2.1, pr.1 ≠ item) ∧
      (retryAttempted st.webhooks itemIds item = true →
        (item ∈ (retryDeadLetterQueue st itemIds outcome now).2.2.dl ↔
          retryAttemptSucceeds outcome item = false) ∧
        ∃ pr ∈ (retryDeadLetterQueue st itemIds outcome now).2.1, pr.1 = item) := by
  intro item hitem
  have hstore : item ∈ st.dl := List.take_subset 51 st.dl hitem
  have hts : item.timestamp < now := hfresh item hstore
  constructor
  · intro hatt
    constructor
    · have := retryLoop_mem_stays st.webhooks itemIds outcome now
        (getDeadLetterQueue st) st.dl item hstore hts
        (Or.inl (fun hc => by rw [hatt] at hc; exact absurd hc.1 (by simp)))
      simpa [retryDeadLetterQueue] using this
    · intro pr hpr
      have h4 := retryLoop_posts_attempted st.webhooks itemIds outcome now
        (getDeadLetterQueue st) st.dl pr (by simpa [retryDeadLetterQueue] using hpr)
      intro hEq
      rw [hEq, hatt] at h4
      exact absurd h4 (by simp)
  · intro hatt
    constructor
    · constructor
      · intro hmem
        by_contra hns
        have hsucc : retryAttemptSucceeds outcome item = true := by
          revert hns
          cases retryAttemptSucceeds outcome item <;> simp
        exact (retryLoop_removed st.webhooks itemIds outcome now
            (getDeadLetterQueue st) st.dl item hts hitem hatt hsucc)
          (by simpa [retryDeadLetterQueue] using hmem)
      · intro hfail
        have := retryLoop_mem_stays st.webhooks itemIds outcome now
          (getDeadLetterQueue st) st.dl item hstore hts
          (Or.inl (fun hc => by rw [hfail] at hc; exact absurd hc.2 (by simp)))
        simpa [retryDeadLetterQueue] using this
    · have := retryLoop_attempted_has_post st.webhooks itemIds outcome now
        (getDeadLetterQueue st) st.dl item hitem hatt
      simpa [retryDeadLetterQueue] using this

/-- Witness for `retryDeadLetterQueue_remove_iff_success`: one dead-letter
record whose webhook is alive and enabled, re-attempted against an endpoint
that still fails — the record stays in the dead-letter store. -/
theorem retryDeadLetterQueue_remove_iff_success_witness :
    ({ webhookId := "w1", userId := "u1", url := "https://example.com/hook",
       eventType := "offer.accepted",
       payload := { event := "offer.accepted", data := "d", timestamp := 0,
                    webhookId := "uuid-1" },
       errorMessage := "Request failed with status code 500", timestamp := 0,
       attempts := 3 } : DeadLetterItem) ∈
      (retryDeadLetterQueue
        { dl := [{ webhookId := "w1", userId := "u1",
                   url := "https://example.com/hook",
                   eventType := "offer.accepted",
                   payload := { event := "offer.accepted", data := "d",
                                timestamp := 0, webhookId := "uuid-1" },
                   errorMessage := "Request failed with status code 500",
                   timestamp := 0, attempts := 3 }],
          webhooks := [{ id := "w1", userId := "u1", webhookId := "uuid-1",
                         url := "https://example.com/hook",
                         events := ["offer.accepted"], secret := "s", name := "n",
                         enabled := true, maxRetries := 3, timeout := 10000,
                         createdAt := 0 }] }
        [] (fun _ _ => false) 1).2.2.dl := by
  exact ((retryDeadLetterQueue_remove_iff_success
    { dl := [{ webhookId := "w1", userId := "u1",
               url := "https://example.com/hook",
               eventType := "offer.accepted",
               payload := { event := "offer.accepted", data := "d",
                            timestamp := 0, webhookId := "uuid-1" },
               errorMessage := "Request failed with status code 500",
               timestamp := 0, attempts := 3 }],
      webhooks := [{ id := "w1", userId := "u1", webhookId := "uuid-1",
                     url := "https://example.com/hook",
                     events := ["offer.accepted"], secret := "s", name := "n",
                     enabled := true, maxRetries := 3, timeout := 10000,
                     createdAt := 0 }] }
    [] (fun _ _ => false) 1 (by decide)
    { webhookId := "w1", userId := "u1", url := "https://example.com/hook",
      eventType := "offer.accepted",
      payload := { event := "offer.accepted", data := "d", timestamp := 0,
                   webhookId := "uuid-1" },
      errorMessage := "Request failed with status code 500", timestamp := 0,
      attempts := 3 } (by decide)).2 (by decide)).1.mpr rfl

end FarmConnect
